import Mathlib

/-!
Verification of the IP resolution and upsert pipeline of the repository's
single source file app.py.

This file is a shallow embedding of the core pipeline: the IPv4 validator
(validate_ip), the country-flag derivation (get_country_flag), the client-IP
resolver (get_user_ip), the geolocation resolution (get_ip_info), the record
store (is_ip_in_database, save_ip_to_database with its SQL upsert), and the
save endpoint (api_save_ip).

External effects are passed explicitly:
the geolocation HTTP call is an Option HttpResponse (Option.none models a
raised exception: timeout or connection failure); the response body is an
Option GeoData (Option.none models a body that is not valid JSON, on which
the json method raises); the PostgreSQL table ip_records is a List Row;
CURRENT_TIMESTAMP is an explicit now : Nat; a database-side statement
failure is modelled by the dbOk : Bool parameter (the exception handler in
the source rolls back and returns False); Python dictionaries (the record
passed to save_ip_to_database, whose dynamic key lookups may raise KeyError)
are modelled by PyValue.
-/

namespace IpEntry

/-- A Python value as it flows through the pipeline: strings, booleans,
None, and string-keyed dictionaries. -/
inductive PyValue : Type where
  | str (s : String) : PyValue
  | bool (b : Bool) : PyValue
  | none : PyValue
  | dict (entries : List (String × PyValue)) : PyValue

/-- Lookup in an association list of dictionary entries (first match wins,
as in a Python dict where keys are unique). -/
def assocGet : List (String × PyValue) → String → Option PyValue
  | [], _ => Option.none
  | (k, v) :: rest, key => if k = key then Option.some v else assocGet rest key

/-- Python subscript lookup on a value: Option.none models a raised KeyError
(or TypeError when the value is not a dictionary). -/
def dictGet (v : PyValue) (key : String) : Option PyValue :=
  match v with
  | PyValue.dict entries => assocGet entries key
  | _ => Option.none

/-! ## Validator: validate_ip, app.py lines 39-42

The source checks the regex
`^(?:(?:25[0-5]|2[0-4][0-9]|[01]?[0-9][0-9]?)\.){3}(?:25[0-5]|2[0-4][0-9]|[01]?[0-9][0-9]?)$`
with re.match.  The embedding works on the character list: the pattern's
dots are literal and no octet alternative can consume a dot, so a match
decomposes the subject uniquely into the dot-separated components; Python's
dollar anchor (without re.MULTILINE) matches at the end of the string and
also just before one newline at the end of the string. -/

/-- The regex character class `[0-9]` (code points 48 to 57). -/
def isDig (c : Char) : Bool := decide (48 ≤ c.toNat) && decide (c.toNat ≤ 57)

/-- One octet of the pattern: `25[0-5]|2[0-4][0-9]|[01]?[0-9][0-9]?`,
organised by length (the digit 2 is code point 50, 5 is 53, 0 is 48, 1 is
49, 4 is 52): one digit or two digits arise from the third alternative with
its optional parts absent; three characters arise from any of the three
alternatives. -/
def matchOctet : List Char → Bool
  | [a] => isDig a
  | [a, b] => isDig a && isDig b
  | [a, b, c] =>
      (decide (a.toNat = 50) && decide (b.toNat = 53) &&
        decide (48 ≤ c.toNat) && decide (c.toNat ≤ 53)) ||
      (decide (a.toNat = 50) && decide (48 ≤ b.toNat) && decide (b.toNat ≤ 52) &&
        isDig c) ||
      ((decide (a.toNat = 48) || decide (a.toNat = 49)) && isDig b && isDig c)
  | _ => false

/-- Split a character list at every occurrence of sep (like the Python
split method with a one-character separator: always at least one component,
empty components preserved). -/
def splitOnSep (sep : Char) : List Char → List (List Char)
  | [] => [[]]
  | c :: rest =>
    if c = sep then [] :: splitOnSep sep rest
    else
      match splitOnSep sep rest with
      | [] => [[c]]
      | group :: groups => (c :: group) :: groups

/-- The fully anchored pattern without the dollar-before-newline allowance:
exactly four octets separated by three literal dots. -/
def matchAnchored (cs : List Char) : Bool :=
  match splitOnSep '.' cs with
  | [a, b, c, d] => matchOctet a && matchOctet b && matchOctet c && matchOctet d
  | _ => false

/-- Embedding of validate_ip (app.py lines 39-42): the result of
re.match with the dotted-quad pattern tested against None.  Python's dollar
anchor also matches immediately before a single newline (code point 10) at
the end of the subject, hence the second disjunct. -/
def validate_ip (s : String) : Bool :=
  matchAnchored s.data ||
    (match s.data.reverse with
     | [] => false
     | c :: rest => decide (c = Char.ofNat 10) && matchAnchored rest.reverse)

/-! ## Specification-side restatement of the validator language -/

/-- Decimal value of a digit string (code point minus 48 per digit). -/
def octetVal (cs : List Char) : Nat :=
  cs.foldl (fun n c => 10 * n + (c.toNat - 48)) 0

/-- Following the specification's words: a decimal octet, written with one
to three digits, whose value lies in the interval from 0 to 255. -/
def isDecimalOctet (cs : List Char) : Bool :=
  decide (1 ≤ cs.length) && decide (cs.length ≤ 3) && cs.all isDig &&
    decide (octetVal cs ≤ 255)

/-- Following the specification's words: exactly four dot-separated decimal
octets, each in the interval from 0 to 255. -/
def isDottedQuad (cs : List Char) : Bool :=
  match splitOnSep '.' cs with
  | [a, b, c, d] =>
    isDecimalOctet a && isDecimalOctet b && isDecimalOctet c && isDecimalOctet d
  | _ => false

/-! ## Country flag: get_country_flag, app.py lines 30-37 -/

/-- ASCII uppercasing of one character, as the Python upper method acts on
the ASCII range (country codes are ASCII): the lowercase letters are code
points 97 to 122, shifted down by 32. -/
def pyToUpper (c : Char) : Char :=
  if 97 ≤ c.toNat ∧ c.toNat ≤ 122 then Char.ofNat (c.toNat - 32) else c

/-- Embedding of get_country_flag (app.py lines 30-37).  The argument is an
Option String because Python may pass None; a falsy or non-two-character
code returns the globe placeholder; otherwise each character of the
uppercased code is shifted by 127397 (chr of ord c plus 127397). -/
def get_country_flag (country_code : Option String) : String :=
  match country_code with
  | Option.none => "🌍"
  | Option.some s =>
    if s.data = [] ∨ s.data.length ≠ 2 then "🌍"
    else String.mk (s.data.map (fun c => Char.ofNat ((pyToUpper c).toNat + 127397)))

/-- The Unicode regional-indicator symbol for an uppercase letter: the
letter's offset from the letter A added to code point 127462. -/
def regionalIndicator (c : Char) : Char := Char.ofNat (127462 + (c.toNat - 65))

/-- An ASCII letter: uppercase (65 to 90) or lowercase (97 to 122). -/
def isAsciiLetter (c : Char) : Prop :=
  (65 ≤ c.toNat ∧ c.toNat ≤ 90) ∨ (97 ≤ c.toNat ∧ c.toNat ≤ 122)

/-! ## Client-IP resolver: get_user_ip, app.py lines 139-156 -/

/-- Python strip-method whitespace, ASCII range: space, tab, newline,
carriage return, form feed, vertical tab. -/
def pySpace (c : Char) : Bool :=
  c = ' ' || c = Char.ofNat 9 || c = Char.ofNat 10 || c = Char.ofNat 13 ||
  c = Char.ofNat 12 || c = Char.ofNat 11

/-- Python strip method: drop leading and trailing whitespace. -/
def pyStrip (cs : List Char) : List Char :=
  ((cs.dropWhile pySpace).reverse.dropWhile pySpace).reverse

/-- The value of the local variable ip in get_user_ip before the loopback
override (app.py lines 142-147): the first comma-separated entry of the
X-Forwarded-For header, stripped, when the header is non-empty, otherwise
request.remote_addr. -/
def candidateIp (xff : String) (remote_addr : String) : String :=
  if xff = "" then remote_addr
  else String.mk (pyStrip ((splitOnSep ',' xff.data).headD []))

/-- Embedding of get_user_ip (app.py lines 139-156).  Here xff is the
X-Forwarded-For header with default empty string (an absent header gives
the empty string, which is falsy); remote_addr is request.remote_addr; ext
is the text of the external what-is-my-IP lookup, with Option.none
modelling a raised exception (the bare exception handler keeps the loopback
address). -/
def get_user_ip (xff : String) (remote_addr : String) (ext : Option String) : String :=
  let ip := candidateIp xff remote_addr
  if ip = "127.0.0.1" then
    match ext with
    | Option.some t => t
    | Option.none => ip
  else ip

/-! ## Geolocation resolution: get_ip_info, app.py lines 158-216 -/

/-- The parsed JSON body of the geolocation provider response, restricted to
the keys the source reads with the get method; Option.none for a field
models its absence from the JSON object. -/
structure GeoData : Type where
  ip : Option String
  asn : Option String
  as_name : Option String
  as_domain : Option String
  country_code : Option String
  country : Option String
  continent_code : Option String
  continent : Option String

/-- An HTTP response from the provider.  The source never reads the status
code: it only calls the json method on the response, which raises when the
body is not valid JSON (body = Option.none). -/
structure HttpResponse : Type where
  status : Nat
  body : Option GeoData

/-- The external world of one get_ip_info call: the provider response
(Option.none models a raised timeout or connection error) and the value
get_user_ip would return. -/
structure Env : Type where
  resp : Option HttpResponse
  userIp : String

/-- The location sub-dictionary built at app.py lines 204-213. -/
structure Location : Type where
  country : String
  country_code : String
  country_flag : String
  continent : String
  continent_code : String
  asn : String
  as_name : String
  as_domain : String

/-- The record dictionary returned by get_ip_info (app.py lines 201-216). -/
structure IpRecord : Type where
  status : String
  ip : String
  location : Location
  vpn_detected : Bool
  vpn_type : Option String

/-- Result of get_ip_info: either the error dictionary with keys error and
ip (app.py lines 163-166) or the record. -/
inductive IpResult : Type where
  | error (error : String) (ip : String) : IpResult
  | record (r : IpRecord) : IpResult

/-- One row of the ip_records table.  The id SERIAL column is omitted
(never read by the pipeline). -/
structure Row : Type where
  ip_address : String
  country : PyValue
  region : PyValue
  city : PyValue
  org : PyValue
  vpn_detected : PyValue
  vpn_type : PyValue
  raw_geo_data : PyValue
  timestamp : Nat

/-- Embedding of is_ip_in_database (app.py lines 84-94): count the rows
whose ip_address column equals ip, then compare the count with zero. -/
def is_ip_in_database (db : List Row) (ip : String) : Bool :=
  db.any (fun r => r.ip_address = ip)

/-- The fallback dictionary built in the exception handler of get_ip_info
(app.py lines 182-191). -/
def fallbackGeo (ip : String) : GeoData :=
  { ip := Option.some ip
    asn := Option.some "Unknown"
    as_name := Option.some "Unknown"
    as_domain := Option.some "Unknown"
    country_code := Option.some ""
    country := Option.some "Unknown"
    continent_code := Option.some ""
    continent := Option.some "Unknown" }

/-- The body of get_ip_info after the subject IP is fixed (app.py lines
171-216): fetch (with fallback on a raised exception), existence check,
flag derivation, record assembly.  Every use of the dictionary get method
with a default becomes Option.getD. -/
def resolveFrom (ip : String) (env : Env) (db : List Row) : IpRecord :=
  let geo_data : GeoData :=
    match env.resp with
    | Option.none => fallbackGeo ip
    | Option.some resp =>
      match resp.body with
      | Option.none => fallbackGeo ip
      | Option.some d => d
  let status := if is_ip_in_database db ip then "duplicate" else "new"
  let country_code := geo_data.country_code.getD ""
  let country_flag := get_country_flag (Option.some country_code)
  { status := status
    ip := geo_data.ip.getD ip
    location :=
      { country := geo_data.country.getD "Unknown"
        country_code := country_code
        country_flag := country_flag
        continent := geo_data.continent.getD "Unknown"
        continent_code := geo_data.continent_code.getD ""
        asn := geo_data.asn.getD "Unknown"
        as_name := geo_data.as_name.getD "Unknown"
        as_domain := geo_data.as_domain.getD "Unknown" }
    vpn_detected := false
    vpn_type := Option.none }

/-- Embedding of get_ip_info (app.py lines 158-216).  Option.none models
the default None argument; the truthiness test on custom_ip is falsy for
both None and the empty string, in which case the subject is the value of
get_user_ip (provided by env). -/
def get_ip_info (custom_ip : Option String) (env : Env) (db : List Row) : IpResult :=
  match custom_ip with
  | Option.some c =>
    if c = "" then IpResult.record (resolveFrom env.userIp env db)
    else if validate_ip c then IpResult.record (resolveFrom c env db)
    else IpResult.error "Invalid IP address format" c
  | Option.none => IpResult.record (resolveFrom env.userIp env db)

/-! ## Store writes: save_ip_to_database, app.py lines 96-133 -/

/-- The dictionary literal returned by get_ip_info (app.py lines 201-216),
exactly as save_ip_to_database and json.dumps receive it. -/
def IpRecord.toDict (r : IpRecord) : PyValue :=
  PyValue.dict
    [("status", PyValue.str r.status),
     ("ip", PyValue.str r.ip),
     ("location", PyValue.dict
        [("country", PyValue.str r.location.country),
         ("country_code", PyValue.str r.location.country_code),
         ("country_flag", PyValue.str r.location.country_flag),
         ("continent", PyValue.str r.location.continent),
         ("continent_code", PyValue.str r.location.continent_code),
         ("asn", PyValue.str r.location.asn),
         ("as_name", PyValue.str r.location.as_name),
         ("as_domain", PyValue.str r.location.as_domain)]),
     ("vpn_detected", PyValue.bool r.vpn_detected),
     ("vpn_type", match r.vpn_type with
                  | Option.some s => PyValue.str s
                  | Option.none => PyValue.none)]

/-- The column values of the parameterised INSERT (app.py lines 115-124),
read from the dictionary inside the protected block. -/
structure SaveArgs : Type where
  ip : PyValue
  country : PyValue
  region : PyValue
  city : PyValue
  org : PyValue
  vpn_detected : PyValue
  vpn_type : PyValue
  raw : PyValue

/-- Extraction of the INSERT arguments from ip_data (app.py lines 116-123):
the keys ip, then country, region, city and org under location, then
vpn_detected and vpn_type, and finally json.dumps of the whole dictionary.
Option.none models a raised KeyError (caught by the exception handler). -/
def saveArgs (ip_data : PyValue) : Option SaveArgs := do
  let ipv ← dictGet ip_data "ip"
  let loc ← dictGet ip_data "location"
  let country ← dictGet loc "country"
  let region ← dictGet loc "region"
  let city ← dictGet loc "city"
  let org ← dictGet loc "org"
  let vpn ← dictGet ip_data "vpn_detected"
  let vpnType ← dictGet ip_data "vpn_type"
  Option.some
    { ip := ipv, country := country, region := region, city := city, org := org
      vpn_detected := vpn, vpn_type := vpnType, raw := ip_data }

/-- The row written by the upsert statement for key ip at time now. -/
def rowOfArgs (now : Nat) (ip : String) (a : SaveArgs) : Row :=
  { ip_address := ip
    country := a.country
    region := a.region
    city := a.city
    org := a.org
    vpn_detected := a.vpn_detected
    vpn_type := a.vpn_type
    raw_geo_data := a.raw
    timestamp := now }

/-- The single atomic INSERT with ON CONFLICT on ip_address DO UPDATE
(app.py lines 102-114): on a key conflict every data column and the
timestamp of the conflicting row are overwritten with the new values and
CURRENT_TIMESTAMP, otherwise a new row is appended. -/
def upsertRow (now : Nat) (db : List Row) (ip : String) (a : SaveArgs) : List Row :=
  if db.any (fun r => r.ip_address = ip) then
    db.map (fun r => if r.ip_address = ip then rowOfArgs now ip a else r)
  else db ++ [rowOfArgs now ip a]

/-- Embedding of save_ip_to_database (app.py lines 96-133).  The argument
tuple is built inside the protected block, so a missing key raises
KeyError, is caught, the transaction is rolled back and False is returned;
the ip_address column is of type INET, so a non-string value fails the
statement; dbOk = false models any other database-side failure of the
statement (also caught: rollback, False).  On success the upsert commits
and True is returned. -/
def save_ip_to_database (dbOk : Bool) (now : Nat) (db : List Row)
    (ip_data : PyValue) : Bool × List Row :=
  match saveArgs ip_data with
  | Option.none => (false, db)
  | Option.some a =>
    if dbOk then
      match a.ip with
      | PyValue.str ip => (true, upsertRow now db ip a)
      | _ => (false, db)
    else (false, db)

/-! ## Save endpoint: api_save_ip, app.py lines 949-988 -/

/-- The JSON responses of the save endpoint: badRequest is the 400 error
response, serverError the 500 error response, and ok the 200 response
carrying success, message and the record. -/
inductive ApiResp : Type where
  | badRequest (error : String) : ApiResp
  | serverError (error : String) : ApiResp
  | ok (success : Bool) (message : String) (data : IpRecord) : ApiResp

/-- Embedding of api_save_ip (app.py lines 949-988).  Here ip_address is
the request's ip_address field already stripped; an empty value is rejected
with 400; an error result from get_ip_info is forwarded with 400; a record
whose status is new is passed to save_ip_to_database, whose success decides
between the 200 success response and the 500 error; any other status
performs no write and answers with success set to false. -/
def api_save_ip (env : Env) (dbOk : Bool) (now : Nat) (db : List Row)
    (ip_address : String) : ApiResp × List Row :=
  if ip_address = "" then (ApiResp.badRequest "IP address is required", db)
  else
    match get_ip_info (Option.some ip_address) env db with
    | IpResult.error e _ => (ApiResp.badRequest e, db)
    | IpResult.record r =>
      if r.status = "new" then
        let res := save_ip_to_database dbOk now db (IpRecord.toDict r)
        if res.fst then
          (ApiResp.ok true ("IP " ++ r.ip ++ " saved successfully!") r, res.snd)
        else (ApiResp.serverError "Failed to save IP to database", res.snd)
      else (ApiResp.ok false "IP already exists in database" r, db)

/-! ## Store abstractions used by the invariants -/

/-- The ip_address column values of the table. -/
def ipsOf (db : List Row) : List String := db.map Row.ip_address

/-- The UNIQUE constraint on ip_address: no two rows share a key. -/
def uniqueIps (db : List Row) : Prop := (ipsOf db).Nodup

/-- Number of rows keyed by ip. -/
def countIp (db : List Row) (ip : String) : Nat :=
  (db.filter (fun r => decide (r.ip_address = ip))).length

/-! ## Concrete fixtures used by witnesses and counterexamples -/

/-- A successful provider response for the address 8.8.8.8 (the shape the
ipinfo lite endpoint documents). -/
def geo888 : GeoData :=
  { ip := Option.some "8.8.8.8", asn := Option.some "AS15169",
    as_name := Option.some "Google LLC", as_domain := Option.some "google.com",
    country_code := Option.some "US", country := Option.some "United States",
    continent_code := Option.some "NA", continent := Option.some "North America" }

/-- An environment with a healthy provider. -/
def env888 : Env :=
  { resp := Option.some { status := 200, body := Option.some geo888 }, userIp := "203.0.113.7" }

/-- The location block get_ip_info assembles from geo888. -/
def loc888 : Location :=
  { country := "United States", country_code := "US", country_flag := "🇺🇸",
    continent := "North America", continent_code := "NA", asn := "AS15169",
    as_name := "Google LLC", as_domain := "google.com" }

/-- The record get_ip_info returns for 8.8.8.8 against a store without that
address. -/
def rec888new : IpRecord :=
  { status := "new", ip := "8.8.8.8", location := loc888,
    vpn_detected := false, vpn_type := Option.none }

/-- The record get_ip_info returns for 8.8.8.8 against a store that already
holds that address. -/
def rec888dup : IpRecord := { rec888new with status := "duplicate" }

/-- Well-formed column values for a direct upsert of 8.8.8.8 (a dictionary
of the shape save_ip_to_database expects, with the legacy region, city and
org keys present). -/
def args888 : SaveArgs :=
  { ip := PyValue.str "8.8.8.8", country := PyValue.str "United States",
    region := PyValue.str "California", city := PyValue.str "Mountain View",
    org := PyValue.str "Google", vpn_detected := PyValue.bool false,
    vpn_type := PyValue.none, raw := PyValue.none }

/-- A pre-existing row for 8.8.8.8. -/
def row888 : Row := rowOfArgs 50 "8.8.8.8" args888

/-- A parseable provider response body carrying a country, as an HTTP error
response with a JSON body would. -/
def geoFr : GeoData :=
  { ip := Option.some "8.8.8.8", asn := Option.none, as_name := Option.none,
    as_domain := Option.none, country_code := Option.none,
    country := Option.some "France", continent_code := Option.none,
    continent := Option.none }

/-- An environment whose provider answers with HTTP status 500 and a
parseable JSON body. -/
def envFr : Env :=
  { resp := Option.some { status := 500, body := Option.some geoFr }, userIp := "9.9.9.9" }

/-- The record get_ip_info assembles from the 500 response of envFr. -/
def recFr : IpRecord :=
  { status := "new", ip := "8.8.8.8",
    location := { country := "France", country_code := "", country_flag := "🌍",
                  continent := "Unknown", continent_code := "", asn := "Unknown",
                  as_name := "Unknown", as_domain := "Unknown" },
    vpn_detected := false, vpn_type := Option.none }

/-- Upsert arguments for 1.1.1.1 with country Austria. -/
def argsA : SaveArgs :=
  { ip := PyValue.str "1.1.1.1", country := PyValue.str "Austria",
    region := PyValue.none, city := PyValue.none, org := PyValue.none,
    vpn_detected := PyValue.bool false, vpn_type := PyValue.none, raw := PyValue.none }

/-- Upsert arguments for 1.1.1.1 with country Belgium. -/
def argsB : SaveArgs := { argsA with country := PyValue.str "Belgium" }

/-! ## Helper lemmas -/

theorem octet_eq (cs : List Char) : matchOctet cs = isDecimalOctet cs := by
  match cs with
  | [] => rfl
  | [a] =>
    rw [Bool.eq_iff_iff]
    simp only [matchOctet, isDecimalOctet, isDig, octetVal, List.foldl_cons, List.foldl_nil,
      List.all_cons, List.all_nil, List.length_cons, List.length_nil,
      Bool.and_eq_true, Bool.or_eq_true, decide_eq_true_eq, Bool.and_true]
    omega
  | [a, b] =>
    rw [Bool.eq_iff_iff]
    simp only [matchOctet, isDecimalOctet, isDig, octetVal, List.foldl_cons, List.foldl_nil,
      List.all_cons, List.all_nil, List.length_cons, List.length_nil,
      Bool.and_eq_true, Bool.or_eq_true, decide_eq_true_eq, Bool.and_true]
    omega
  | [a, b, c] =>
    rw [Bool.eq_iff_iff]
    simp only [matchOctet, isDecimalOctet, isDig, octetVal, List.foldl_cons, List.foldl_nil,
      List.all_cons, List.all_nil, List.length_cons, List.length_nil,
      Bool.and_eq_true, Bool.or_eq_true, decide_eq_true_eq, Bool.and_true]
    omega
  | a :: b :: c :: d :: t =>
    have h3 : decide ((a :: b :: c :: d :: t).length ≤ 3) = false := by
      simp only [decide_eq_false_iff_not, List.length_cons]
      omega
    simp only [matchOctet, isDecimalOctet, h3, Bool.and_false, Bool.false_and]

theorem anchored_eq (cs : List Char) : matchAnchored cs = isDottedQuad cs := by
  unfold matchAnchored isDottedQuad
  rcases h : splitOnSep '.' cs with _ | ⟨a, _ | ⟨b, _ | ⟨c, _ | ⟨d, _ | ⟨e, t⟩⟩⟩⟩⟩ <;>
    simp [octet_eq]

theorem toNat_ofNat_valid (n : Nat) (h : n < 55296) : (Char.ofNat n).toNat = n := by
  rw [Char.ofNat, dif_pos (Or.inl h)]
  simp [Char.ofNatAux, Char.toNat, UInt32.toNat]

theorem pyToUpper_toNat (c : Char) (h : isAsciiLetter c) :
    65 ≤ (pyToUpper c).toNat ∧ (pyToUpper c).toNat ≤ 90 := by
  unfold pyToUpper
  rcases h with h | h
  · rw [if_neg (by omega)]
    omega
  · rw [if_pos (by omega), toNat_ofNat_valid _ (by omega)]
    omega

theorem flagChar_eq (c : Char) (h : isAsciiLetter c) :
    Char.ofNat ((pyToUpper c).toNat + 127397) = regionalIndicator (pyToUpper c) := by
  unfold regionalIndicator
  obtain ⟨h1, h2⟩ := pyToUpper_toNat c h
  congr 1
  omega

theorem splitOnSep_ne_nil (sep : Char) (cs : List Char) : splitOnSep sep cs ≠ [] := by
  cases cs with
  | nil => simp [splitOnSep]
  | cons c rest =>
    unfold splitOnSep
    by_cases h : c = sep
    · rw [if_pos h]
      simp
    · rw [if_neg h]
      cases hs : splitOnSep sep rest <;> simp

theorem splitOnSep_head (sep : Char) (cs : List Char) :
    (splitOnSep sep cs).headD [] = cs.takeWhile (fun c => !decide (c = sep)) := by
  induction cs with
  | nil => rfl
  | cons c rest ih =>
    unfold splitOnSep
    by_cases h : c = sep
    · rw [if_pos h]
      simp [List.takeWhile_cons, h]
    · rw [if_neg h]
      rcases hs : splitOnSep sep rest with _ | ⟨g, gs⟩
      · exact absurd hs (splitOnSep_ne_nil sep rest)
      · rw [hs] at ih
        simp only [List.headD_cons] at ih ⊢
        rw [List.takeWhile_cons, if_pos (by simp [h])]
        rw [← ih]

theorem ipsOf_upsert_of_mem (now : Nat) (ip : String) (a : SaveArgs) (db : List Row)
    (h : db.any (fun r => r.ip_address = ip) = true) :
    ipsOf (upsertRow now db ip a) = ipsOf db := by
  unfold upsertRow
  rw [if_pos h]
  unfold ipsOf
  rw [List.map_map]
  apply List.map_congr_left
  intro r _
  by_cases hr : r.ip_address = ip
  · simp only [Function.comp, if_pos hr]
    rw [← hr]
    rfl
  · simp only [Function.comp, if_neg hr]

theorem uniqueIps_upsert (now : Nat) (ip : String) (a : SaveArgs) (db : List Row)
    (h : uniqueIps db) : uniqueIps (upsertRow now db ip a) := by
  by_cases hin : db.any (fun r => r.ip_address = ip) = true
  · unfold uniqueIps
    rw [ipsOf_upsert_of_mem now ip a db hin]
    exact h
  · rw [Bool.not_eq_true, List.any_eq_false] at hin
    simp only [decide_eq_true_eq] at hin
    unfold uniqueIps upsertRow
    rw [if_neg (by
      rw [Bool.not_eq_true, List.any_eq_false]
      intro x hx
      simp only [decide_eq_true_eq]
      exact hin x hx)]
    unfold ipsOf
    rw [List.map_append, List.nodup_append]
    refine ⟨h, List.nodup_singleton _, ?_⟩
    intro s hs hs2
    simp only [List.map_cons, List.map_nil, List.mem_singleton, rowOfArgs] at hs2
    obtain ⟨r, hr, hrip⟩ := List.mem_map.mp hs
    exact hin r hr (by rw [hrip]; exact hs2)

theorem countIp_eq_zero_of_not_mem (db : List Row) (ip : String)
    (h : ∀ r ∈ db, ¬ r.ip_address = ip) : countIp db ip = 0 := by
  unfold countIp
  rw [List.filter_eq_nil_iff.mpr (by intro r hr; simp [h r hr])]
  rfl

theorem countIp_le_one (db : List Row) (h : uniqueIps db) (ip : String) :
    countIp db ip ≤ 1 := by
  induction db with
  | nil => exact Nat.zero_le 1
  | cons r rest ih =>
    have hnd := h
    unfold uniqueIps ipsOf at hnd
    rw [List.map_cons, List.nodup_cons] at hnd
    obtain ⟨hnm, hrest⟩ := hnd
    by_cases hr : r.ip_address = ip
    · unfold countIp
      rw [List.filter_cons_of_pos (by simp [hr]), List.length_cons]
      have hzero : countIp rest ip = 0 := countIp_eq_zero_of_not_mem rest ip (by
        intro x hx hxip
        exact hnm (List.mem_map.mpr ⟨x, hx, by rw [hxip, hr]⟩))
      unfold countIp at hzero
      omega
    · unfold countIp
      rw [List.filter_cons_of_neg (by simp [hr])]
      exact ih hrest

theorem filter_map_of_no_match (ip : String) (now : Nat) (a : SaveArgs) (rest : List Row)
    (h : ∀ x ∈ rest, ¬ x.ip_address = ip) :
    (rest.map (fun r => if r.ip_address = ip then rowOfArgs now ip a else r)).filter
      (fun r => decide (r.ip_address = ip)) = [] := by
  induction rest with
  | nil => rfl
  | cons x xs ih =>
    rw [List.map_cons, if_neg (h x (by simp))]
    rw [List.filter_cons_of_neg (by simp [h x (by simp)])]
    exact ih (fun y hy => h y (by simp [hy]))

theorem filter_map_replace (ip : String) (now : Nat) (a : SaveArgs) :
    ∀ db : List Row, uniqueIps db →
    db.any (fun r => r.ip_address = ip) = true →
    (db.map (fun r => if r.ip_address = ip then rowOfArgs now ip a else r)).filter
      (fun r => decide (r.ip_address = ip)) = [rowOfArgs now ip a] := by
  intro db
  induction db with
  | nil =>
    intro _ hany
    simp at hany
  | cons r rest ih =>
    intro hnd hany
    have hnd2 := hnd
    unfold uniqueIps ipsOf at hnd2
    rw [List.map_cons, List.nodup_cons] at hnd2
    obtain ⟨hnm, hrest⟩ := hnd2
    rw [List.map_cons]
    by_cases hr : r.ip_address = ip
    · rw [if_pos hr]
      rw [List.filter_cons_of_pos (by simp [rowOfArgs])]
      rw [filter_map_of_no_match ip now a rest (by
        intro x hx hxip
        exact hnm (List.mem_map.mpr ⟨x, hx, by rw [hxip, hr]⟩))]
    · rw [if_neg hr]
      rw [List.filter_cons_of_neg (by simp [hr])]
      apply ih hrest
      rcases List.any_eq_true.mp hany with ⟨x, hx, hxp⟩
      rcases List.mem_cons.mp hx with hxr | hxrest
      · exact absurd (by rw [← hxr] at hr; simpa using hxp) (by simp [hr, hxr])
      · exact List.any_eq_true.mpr ⟨x, hxrest, hxp⟩

theorem filter_upsert (now : Nat) (ip : String) (a : SaveArgs) (db : List Row)
    (h : uniqueIps db) :
    (upsertRow now db ip a).filter (fun r => decide (r.ip_address = ip)) =
      [rowOfArgs now ip a] := by
  unfold upsertRow
  by_cases hin : db.any (fun r => r.ip_address = ip) = true
  · rw [if_pos hin]
    exact filter_map_replace ip now a db h hin
  · rw [if_neg hin]
    rw [Bool.not_eq_true, List.any_eq_false] at hin
    rw [List.filter_append]
    rw [List.filter_eq_nil_iff.mpr (by
      intro r hr
      have := hin r hr
      simpa using this)]
    rw [List.nil_append]
    rw [List.filter_cons_of_pos (by simp [rowOfArgs])]
    rfl

/-! ## Claim theorems -/

/-- Claim C3, counterexample: the string 1.2.3.4 followed by a newline has
a fourth dot-separated component that is not numeric (it contains the
newline, code point 10, which is not a digit), yet validate_ip accepts it,
because the Python dollar anchor also matches just before a trailing
newline.  So the claim that every string with a non-numeric octet is
rejected is false as stated. -/
theorem validate_ip_counterexample :
    validate_ip "1.2.3.4\n" = true ∧
    splitOnSep '.' ("1.2.3.4\n".data) = [['1'], ['2'], ['3'], ['4', Char.ofNat 10]] ∧
    isDig (Char.ofNat 10) = false := by decide

/-- Claim C3, amended: validate_ip accepts a string exactly when it — or
the string obtained by removing one trailing newline from it — consists of
exactly four dot-separated decimal octets of one to three digits, each with
value at most 255.  In particular every string of four such octets (no
leading plus, no surrounding whitespace) is accepted, and every string with
a non-numeric octet, a fifth octet, or an out-of-range octet is rejected,
except for the single trailing-newline allowance. -/
theorem validate_ip_characterization (s : String) :
    validate_ip s = true ↔
      (isDottedQuad s.data = true ∨
        ∃ t : List Char, s.data = t ++ [Char.ofNat 10] ∧ isDottedQuad t = true) := by
  unfold validate_ip
  rw [Bool.or_eq_true, anchored_eq]
  constructor
  · rintro (h | h)
    · exact Or.inl h
    · right
      rcases hl : s.data.reverse with _ | ⟨c, rest⟩
      · rw [hl] at h
        simp at h
      · rw [hl] at h
        simp only [Bool.and_eq_true, decide_eq_true_eq] at h
        obtain ⟨hc, hm⟩ := h
        refine ⟨rest.reverse, ?_, ?_⟩
        · have := congrArg List.reverse hl
          rw [List.reverse_reverse] at this
          rw [this, List.reverse_cons, hc]
        · rw [← anchored_eq]
          exact hm
  · rintro (h | ⟨t, ht, hq⟩)
    · exact Or.inl h
    · right
      rw [ht, List.reverse_append]
      simp only [List.reverse_cons, List.reverse_nil, List.nil_append, List.singleton_append]
      simp only [decide_eq_true_eq, List.reverse_reverse, Bool.and_eq_true]
      exact ⟨trivial, by rw [anchored_eq]; exact hq⟩

/-- Claim C6: for a two-letter code, get_country_flag returns the pair of
regional-indicator symbols of the two uppercased letters; for None, the
empty string, or a code whose length is not two, it returns the globe
placeholder. -/
theorem get_country_flag_ok :
    (∀ a b : Char, isAsciiLetter a → isAsciiLetter b →
      get_country_flag (Option.some (String.mk [a, b])) =
        String.mk [regionalIndicator (pyToUpper a), regionalIndicator (pyToUpper b)]) ∧
    get_country_flag Option.none = "🌍" ∧
    get_country_flag (Option.some "") = "🌍" ∧
    ∀ s : String, s.data.length ≠ 2 → get_country_flag (Option.some s) = "🌍" := by
  refine ⟨?_, rfl, rfl, ?_⟩
  · intro a b ha hb
    simp only [get_country_flag]
    rw [if_neg (by simp)]
    simp only [List.map_cons, List.map_nil]
    rw [flagChar_eq a ha, flagChar_eq b hb]
  · intro s hs
    simp only [get_country_flag]
    rw [if_pos (Or.inr hs)]

/-- Claim C6, witness: the code US maps to the indicator pair for U and S. -/
theorem get_country_flag_witness : get_country_flag (Option.some "US") = "🇺🇸" :=
  get_country_flag_ok.1 'U' 'S' (Or.inl (by decide)) (Or.inl (by decide))

/-- Claim C4: a non-empty custom IP failing the validator makes get_ip_info
return the invalid-format error carrying exactly that input; an input that
passes the validator always yields a record, never that error. -/
theorem invalid_input_ok :
    (∀ (s : String) (env : Env) (db : List Row), s ≠ "" → validate_ip s = false →
      get_ip_info (Option.some s) env db = IpResult.error "Invalid IP address format" s) ∧
    (∀ (s : String) (env : Env) (db : List Row), validate_ip s = true →
      ∃ r : IpRecord, get_ip_info (Option.some s) env db = IpResult.record r) := by
  constructor
  · intro s env db hne hv
    simp only [get_ip_info, if_neg hne]
    rw [if_neg]
    rw [hv]
    simp
  · intro s env db hv
    have hne : s ≠ "" := by
      intro he
      rw [he] at hv
      exact absurd hv (by decide)
    exact ⟨resolveFrom s env db, by simp only [get_ip_info, if_neg hne, if_pos hv]⟩

/-- Claim C4, witness: the input not-an-ip produces the error carrying
not-an-ip. -/
theorem invalid_input_witness :
    get_ip_info (Option.some "not-an-ip") env888 [] =
      IpResult.error "Invalid IP address format" "not-an-ip" :=
  invalid_input_ok.1 "not-an-ip" env888 [] (by decide) (by decide)

/-- Claim C5, counterexample: the provider answers with HTTP status 500 and
a parseable JSON body naming a country; get_ip_info never inspects the
status code, so the returned record carries that country rather than the
all-Unknown fallback the claim requires for every non-200 response. -/
theorem provider_failure_counterexample :
    envFr.resp = Option.some { status := 500, body := Option.some geoFr } ∧
    (500 : Nat) ≠ 200 ∧
    get_ip_info (Option.some "8.8.8.8") envFr [] = IpResult.record recFr ∧
    recFr.location.country = "France" ∧ recFr.location.country ≠ "Unknown" := by
  refine ⟨rfl, by decide, rfl, rfl, by decide⟩

/-- Claim C5, amended: when the geolocation call raises — a timeout or
connection failure (no response) or a body that is not parseable JSON — and
the subject IP is valid, get_ip_info returns, not an error, a fully
populated record with the same ip, the descriptive fields country,
continent, asn, as_name and as_domain equal to the literal Unknown, empty
country and continent codes, the globe placeholder flag, vpn_detected false
and vpn_type null.  (The HTTP status code is never inspected: a non-200
response with a parseable JSON body is treated like a success, each absent
field defaulted individually.) -/
theorem provider_fallback_ok (ip : String) (env : Env) (db : List Row)
    (hv : validate_ip ip = true)
    (hfail : env.resp = Option.none ∨
      ∃ hr : HttpResponse, env.resp = Option.some hr ∧ hr.body = Option.none) :
    get_ip_info (Option.some ip) env db = IpResult.record
      { status := if is_ip_in_database db ip then "duplicate" else "new"
        ip := ip
        location := { country := "Unknown", country_code := "", country_flag := "🌍",
                      continent := "Unknown", continent_code := "", asn := "Unknown",
                      as_name := "Unknown", as_domain := "Unknown" }
        vpn_detected := false
        vpn_type := Option.none } := by
  have hne : ip ≠ "" := by
    intro he
    rw [he] at hv
    exact absurd hv (by decide)
  simp only [get_ip_info, if_neg hne, if_pos hv]
  have hgeo : (match env.resp with
      | Option.none => fallbackGeo ip
      | Option.some resp =>
        match resp.body with
        | Option.none => fallbackGeo ip
        | Option.some d => d) = fallbackGeo ip := by
    rcases hfail with h | ⟨hr, h1, h2⟩
    · rw [h]
    · rw [h1]
      show (match hr.body with
            | Option.none => fallbackGeo ip
            | Option.some d => d) = fallbackGeo ip
      rw [h2]
  unfold resolveFrom
  rw [hgeo]
  rfl

/-- Claim C5, witness: with a raised provider call, 8.8.8.8 resolves to the
all-Unknown fallback record, not an error. -/
theorem provider_fallback_witness :
    validate_ip "8.8.8.8" = true ∧
    get_ip_info (Option.some "8.8.8.8") { resp := Option.none, userIp := "x" } [] =
      IpResult.record
        { status := "new", ip := "8.8.8.8",
          location := { country := "Unknown", country_code := "", country_flag := "🌍",
                        continent := "Unknown", continent_code := "", asn := "Unknown",
                        as_name := "Unknown", as_domain := "Unknown" },
          vpn_detected := false, vpn_type := Option.none } :=
  ⟨by decide, provider_fallback_ok "8.8.8.8" { resp := Option.none, userIp := "x" } []
      (by decide) (Or.inl rfl)⟩

/-- Claim C2: every record a successful get_ip_info call returns makes
save_ip_to_database return False and leave the store unchanged, against any
store state: the function reads the keys region, city and org under
location, which get_ip_info never sets, so the KeyError is caught, the
transaction rolled back, and no record of the resolve pipeline is ever
persisted. -/
theorem pipeline_never_persisted (custom : Option String) (env : Env)
    (db db2 : List Row) (dbOk : Bool) (now : Nat) (r : IpRecord)
    (_h : get_ip_info custom env db = IpResult.record r) :
    save_ip_to_database dbOk now db2 (IpRecord.toDict r) = (false, db2) := rfl

/-- Claim C2, witness: the record resolved for 8.8.8.8 is rejected by
save_ip_to_database even with a healthy database. -/
theorem pipeline_never_persisted_witness :
    save_ip_to_database true 100 [] (IpRecord.toDict rec888new) = (false, []) :=
  pipeline_never_persisted (Option.some "8.8.8.8") env888 [] [] true 100 rec888new rfl

/-- Claim C1, code bug, evaluated at the failing input: resolving the fresh
address 8.8.8.8 against an empty store yields status new; the save endpoint
then fails (save_ip_to_database raises KeyError on the missing region key,
rolls back and returns False, so the endpoint answers with the 500 error
and an unchanged store); a second resolution of the same address therefore
still yields status new, not the duplicate the claim requires. -/
theorem roundtrip_code_bug :
    get_ip_info (Option.some "8.8.8.8") env888 [] = IpResult.record rec888new ∧
    rec888new.status = "new" ∧
    save_ip_to_database true 100 [] (IpRecord.toDict rec888new) = (false, []) ∧
    api_save_ip env888 true 100 [] "8.8.8.8" =
      (ApiResp.serverError "Failed to save IP to database", []) ∧
    get_ip_info (Option.some "8.8.8.8")
      env888 (api_save_ip env888 true 100 [] "8.8.8.8").snd = IpResult.record rec888new ∧
    rec888new.status ≠ "duplicate" :=
  ⟨rfl, rfl, rfl, rfl, rfl, by decide⟩

/-- Claim C7: for every record a successful get_ip_info call returns, the
status is duplicate exactly when the subject IP already had a row in the
store passed to the call and new otherwise; the status does not depend on
the provider response (only on the store and the subject IP); and for a
pipeline record no save ever changes the store, so in particular the status
is never written to it. -/
theorem status_semantics_ok (ip : String) (env : Env) (db : List Row) (r : IpRecord)
    (hv : validate_ip ip = true)
    (h : get_ip_info (Option.some ip) env db = IpResult.record r) :
    (r.status = "duplicate" ↔ is_ip_in_database db ip = true) ∧
    (r.status = "new" ↔ is_ip_in_database db ip = false) ∧
    (∀ env' : Env, ∃ r' : IpRecord,
      get_ip_info (Option.some ip) env' db = IpResult.record r' ∧ r'.status = r.status) ∧
    (∀ (db2 : List Row) (dbOk : Bool) (now : Nat),
      (save_ip_to_database dbOk now db2 (IpRecord.toDict r)).snd = db2) := by
  have hne : ip ≠ "" := by
    intro he
    rw [he] at hv
    exact absurd hv (by decide)
  simp only [get_ip_info, if_neg hne, if_pos hv] at h
  injection h with h
  subst h
  have hst : (resolveFrom ip env db).status =
      (if is_ip_in_database db ip then "duplicate" else "new") := rfl
  refine ⟨?_, ?_, ?_, ?_⟩
  · rw [hst]
    by_cases hdb : is_ip_in_database db ip
    · simp [hdb]
    · simp [hdb]
  · rw [hst]
    by_cases hdb : is_ip_in_database db ip
    · simp [hdb]
    · simp [hdb]
  · intro env'
    refine ⟨resolveFrom ip env' db, ?_, rfl⟩
    simp only [get_ip_info, if_neg hne, if_pos hv]
  · intro db2 dbOk now
    rfl

/-- Claim C7, witness: against the empty store, the record resolved for
8.8.8.8 has status new, matching the absence of a row. -/
theorem status_semantics_witness :
    (rec888new.status = "duplicate" ↔ is_ip_in_database [] "8.8.8.8" = true) ∧
    (rec888new.status = "new" ↔ is_ip_in_database [] "8.8.8.8" = false) :=
  ⟨(status_semantics_ok "8.8.8.8" env888 [] rec888new (by decide) rfl).1,
   (status_semantics_ok "8.8.8.8" env888 [] rec888new (by decide) rfl).2.1⟩

/-- Claim C8: when get_ip_info yields a record whose status is not new, the
save endpoint performs no write and reports success false; when the status
is new, it calls save_ip_to_database and its result decides both the
response and the resulting store. -/
theorem persist_guard_ok (env : Env) (dbOk : Bool) (now : Nat) (db : List Row)
    (ip : String) (r : IpRecord) (hne : ip ≠ "")
    (h : get_ip_info (Option.some ip) env db = IpResult.record r) :
    (r.status ≠ "new" →
      api_save_ip env dbOk now db ip =
        (ApiResp.ok false "IP already exists in database" r, db)) ∧
    (r.status = "new" →
      api_save_ip env dbOk now db ip =
        (if (save_ip_to_database dbOk now db (IpRecord.toDict r)).fst
         then (ApiResp.ok true ("IP " ++ r.ip ++ " saved successfully!") r,
               (save_ip_to_database dbOk now db (IpRecord.toDict r)).snd)
         else (ApiResp.serverError "Failed to save IP to database",
               (save_ip_to_database dbOk now db (IpRecord.toDict r)).snd))) := by
  constructor
  · intro hs
    simp only [api_save_ip, if_neg hne, h]
    rw [if_neg hs]
  · intro hs
    simp only [api_save_ip, if_neg hne, h]
    rw [if_pos hs]

/-- Claim C8, witness: saving 8.8.8.8 against a store that already holds a
row for it writes nothing and answers success false. -/
theorem persist_guard_witness :
    api_save_ip env888 true 100 [row888] "8.8.8.8" =
      (ApiResp.ok false "IP already exists in database" rec888dup, [row888]) :=
  (persist_guard_ok env888 true 100 [row888] "8.8.8.8" rec888dup
    (by decide) rfl).1 (by decide)

/-- Claim C9: starting from a store satisfying the unique-key constraint,
any sequence of upserts preserves it and leaves at most one row per IP;
upserting the same IP twice with different country values leaves exactly
one row for it, carrying the second country and the second write's
timestamp; and a failed statement (dbOk false: the exception handler rolls
back) leaves the store unchanged and returns False. -/
theorem upsert_invariant_ok :
    (∀ (ops : List (Nat × String × SaveArgs)) (db : List Row), uniqueIps db →
      uniqueIps (ops.foldl (fun d o => upsertRow o.fst d o.snd.fst o.snd.snd) db) ∧
      ∀ ip : String,
        countIp (ops.foldl (fun d o => upsertRow o.fst d o.snd.fst o.snd.snd) db) ip ≤ 1) ∧
    (∀ (db : List Row) (ip : String) (a1 a2 : SaveArgs) (t1 t2 : Nat), uniqueIps db →
      a1.country ≠ a2.country →
      countIp (upsertRow t2 (upsertRow t1 db ip a1) ip a2) ip = 1 ∧
      ∀ r ∈ upsertRow t2 (upsertRow t1 db ip a1) ip a2,
        r.ip_address = ip → r.country = a2.country ∧ r.timestamp = t2) ∧
    (∀ (db : List Row) (d : PyValue) (now : Nat),
      save_ip_to_database false now db d = (false, db)) := by
  refine ⟨?_, ?_, ?_⟩
  · intro ops
    induction ops with
    | nil =>
      intro db h
      exact ⟨h, fun ip => countIp_le_one db h ip⟩
    | cons o rest ih =>
      intro db h
      simp only [List.foldl_cons]
      exact ih _ (uniqueIps_upsert o.fst o.snd.fst o.snd.snd db h)
  · intro db ip a1 a2 t1 t2 h hc
    have h1 : uniqueIps (upsertRow t1 db ip a1) := uniqueIps_upsert t1 ip a1 db h
    have hf := filter_upsert t2 ip a2 (upsertRow t1 db ip a1) h1
    constructor
    · unfold countIp
      rw [hf]
      rfl
    · intro r hr hrip
      have hmem : r ∈ (upsertRow t2 (upsertRow t1 db ip a1) ip a2).filter
          (fun r => decide (r.ip_address = ip)) :=
        List.mem_filter.mpr ⟨hr, by simp [hrip]⟩
      rw [hf, List.mem_singleton] at hmem
      rw [hmem]
      exact ⟨rfl, rfl⟩
  · intro db d now
    cases hargs : saveArgs d with
    | none => simp [save_ip_to_database, hargs]
    | some a => simp [save_ip_to_database, hargs]

/-- Claim C9, witness: upserting 1.1.1.1 with country Austria and then with
country Belgium into the empty store leaves exactly one row for it. -/
theorem upsert_invariant_witness :
    countIp (upsertRow 2 (upsertRow 1 [] "1.1.1.1" argsA) "1.1.1.1" argsB) "1.1.1.1" = 1 :=
  (upsert_invariant_ok.2.1 [] "1.1.1.1" argsA argsB 1 2 List.nodup_nil
    (by intro h; injection h with h2; exact absurd h2 (by decide))).1

/-- Claim C10: with a non-empty forwarding header the candidate subject IP
is the first comma-separated entry trimmed of whitespace, otherwise the
transport-level remote address; when the candidate is the loopback address
it is replaced by the external lookup result when that lookup succeeds and
kept as the loopback address when the lookup fails; any other candidate is
returned as is. -/
theorem client_ip_resolution (xff remote_addr : String) (ext : Option String) :
    (xff ≠ "" → candidateIp xff remote_addr =
      String.mk (pyStrip (xff.data.takeWhile (fun c => !decide (c = ','))))) ∧
    (xff = "" → candidateIp xff remote_addr = remote_addr) ∧
    (candidateIp xff remote_addr ≠ "127.0.0.1" →
      get_user_ip xff remote_addr ext = candidateIp xff remote_addr) ∧
    (candidateIp xff remote_addr = "127.0.0.1" →
      ∀ t : String, ext = Option.some t → get_user_ip xff remote_addr ext = t) ∧
    (candidateIp xff remote_addr = "127.0.0.1" → ext = Option.none →
      get_user_ip xff remote_addr ext = "127.0.0.1") := by
  refine ⟨?_, ?_, ?_, ?_, ?_⟩
  · intro h
    unfold candidateIp
    rw [if_neg h, splitOnSep_head]
  · intro h
    unfold candidateIp
    rw [if_pos h]
  · intro h
    simp only [get_user_ip]
    rw [if_neg h]
  · intro h t ht
    simp only [get_user_ip]
    rw [if_pos h, ht]
  · intro h hn
    simp only [get_user_ip]
    rw [if_pos h, hn]
    exact h

/-- Claim C10, witness: a forwarding header with two entries resolves to
its first entry, trimmed. -/
theorem client_ip_witness :
    get_user_ip " 10.0.0.1 , 9.9.9.9" "203.0.113.5" Option.none = "10.0.0.1" :=
  (client_ip_resolution " 10.0.0.1 , 9.9.9.9" "203.0.113.5" Option.none).2.2.1 (by decide)

end IpEntry
